import Mathlib

/-!
# Verification of the user-service follow/unfollow orchestrator

Shallow embedding of `src/controllers/userRelationshipsController.js` (follow,
unfollow, getFollowers, getFollowing) over the Prisma data model of
`prisma/schema.prisma` (`User`, `Follows`).

The relational store is a `DB` value; the observable effects of one request
(HTTP response, transaction commit, cache invalidations, event publications,
log lines) are collected in order into a `List Action`.  Collaborator
behaviour that can vary at run time (a concurrent insert racing the
check-then-create, a broker publish failure, a dead-letter publish failure,
cache invalidation failures) is supplied by an `Env` oracle.
-/

namespace UserService

/-- The two fields of a `User` row the orchestrator reads
(`select: { id: true, authUserId: true }`). -/
structure User where
  id : String
  authUserId : String
deriving Repr, DecidableEq

/-- A `Follows` row: composite primary key `(followerId, followingId)` plus
`createdAt` (modelled as a numeric timestamp). -/
structure Edge where
  followerId : String
  followingId : String
  createdAt : Nat
deriving Repr, DecidableEq

/-- The relational store: the `User` table and the `Follows` table. -/
structure DB where
  users : List User
  follows : List Edge
deriving Repr, DecidableEq

/-- Event payloads published by the orchestrator. -/
inductive Payload where
  | followed (followerId followingId followerAuthId followingAuthId : String)
  | unfollowed (followerId followingId : String)
  | deadLetter (operation followerId followingId error : String)
deriving Repr, DecidableEq

/-- A published broker message: topic, payload, optional deduplication key. -/
structure Msg where
  topic : String
  payload : Payload
  key : Option String
deriving Repr, DecidableEq

/-- HTTP responses produced by the handlers. -/
inductive Response where
  | badRequest (error : String)
  | accepted (message status followerId followingId : String)
deriving Repr, DecidableEq

/-- One observable effect of a request, in program order. -/
inductive Action where
  | respond (r : Response)
  | txCommit
  | invalidate (key : String)
  | publish (m : Msg)
  | log (s : String)
deriving Repr, DecidableEq

/-- Topic names from the shared Kafka module. -/
def TOPIC_USER_FOLLOWED : String := "USER_FOLLOWED"

/-- Topic name for the unfollow event. -/
def TOPIC_USER_UNFOLLOWED : String := "USER_UNFOLLOWED"

/-- Topic name for the dead-letter queue. -/
def TOPIC_DEAD_LETTER_QUEUE : String := "DEAD_LETTER_QUEUE"

/-- Run-time behaviour of the collaborators that the orchestrator's control
flow branches on: whether a concurrent transaction commits the same edge
between the existence check and the insert (surfacing as a store
uniqueness-constraint violation), whether the main event publish rejects,
whether the dead-letter publish rejects, and which cache keys fail to
invalidate. -/
structure Env where
  insertRaces : Bool
  publishFails : Bool
  dlqFails : Bool
  cacheFails : List String
deriving Repr, DecidableEq

/-- `tx.user.findUnique({ where: { id } })`. -/
def findUser (db : DB) (uid : String) : Option User :=
  db.users.find? (fun u => u.id == uid)

/-- `tx.follows.findUnique({ where: { followerId_followingId } })`. -/
def findEdge (db : DB) (followerId followingId : String) : Option Edge :=
  db.follows.find? (fun e => e.followerId == followerId && e.followingId == followingId)

/-- Error message raised by the store on a primary-key uniqueness violation. -/
def uniqueViolationMsg : String :=
  "Unique constraint failed on the fields: (followerId,followingId)"

/-- Modelled from the spec: `invalidateCache` lives in `src/middleware/cache.js`,
which is absent from the source snapshot (only its import in
`src/config/jobQueueInit.js` and its call sites in the controller remain).
Per the spec the cache sink is best-effort: an invalidation failure is
logged and swallowed, never fatal to the caller.  The attempt is always
recorded; a failing key additionally produces a log line. -/
def invalidateCache (env : Env) (key : String) : List Action :=
  if env.cacheFails.contains key then
    [Action.invalidate key, Action.log ("Cache invalidation failed: " ++ key)]
  else
    [Action.invalidate key]

/-- The four cache keys invalidated after a follow/unfollow mutation, in the
order of the `Promise.all` array in the controller. -/
def relationshipCacheKeys (followerId followingId : String) : List String :=
  ["user:profile:" ++ followingId,
   "user:profile:" ++ followerId,
   "follow:" ++ followerId ++ ":following",
   "follow:" ++ followingId ++ ":followers"]

/-- Invalidate every key in the list; all attempts happen regardless of
individual failures (`Promise.all` starts all four eagerly). -/
def invalidateAll (env : Env) (keys : List String) : List Action :=
  keys.flatMap (invalidateCache env)

/-- The catch-block path shared by follow and unfollow: log the error, then
try to publish a dead-letter message carrying the operation name, both ids
and the error message; a dead-letter publish failure is only logged. -/
def deadLetterPath (env : Env) (op followerId followingId errMsg : String) : List Action :=
  Action.log ("Error in async " ++ op ++ " processing: " ++ errMsg) ::
  (if env.dlqFails then
    [Action.log ("Failed to publish " ++ op ++ " error event")]
  else
    [Action.publish ⟨TOPIC_DEAD_LETTER_QUEUE,
      Payload.deadLetter op followerId followingId errMsg, none⟩])

/-- Result of the follow transaction callback. -/
inductive FollowTxResult where
  | alreadyExists (follower following : User)
  | created (follower following : User) (edge : Edge)
deriving Repr, DecidableEq

/-- The `prisma.$transaction` callback of `followUser`: fetch follower,
following and the existing edge; abort when a participant is missing;
no-op when the edge exists; otherwise insert the edge (which raises the
uniqueness violation when a concurrent insert won the race). -/
def followTx (env : Env) (db : DB) (followerId followingId : String) (now : Nat) :
    Except String (FollowTxResult × DB) :=
  match findUser db followerId, findUser db followingId with
  | some follower, some following =>
    match findEdge db followerId followingId with
    | some _ => Except.ok (FollowTxResult.alreadyExists follower following, db)
    | none =>
      if env.insertRaces then
        Except.error uniqueViolationMsg
      else
        let e : Edge := ⟨followerId, followingId, now⟩
        Except.ok (FollowTxResult.created follower following e,
                   { db with follows := e :: db.follows })
  | _, _ => Except.error "One or more users not found"

/-- A follow/unfollow request: `req.params.id` (the target) and
`req.user.userId` (the authenticated follower).  A missing id is the empty
string (falsy in the source's `!followerId || !followingId` check). -/
structure Request where
  paramsId : String
  userId : String
deriving Repr, DecidableEq

/-- The post-transaction tail of the follow trace: nothing on the idempotent
no-op; on a new edge the USER_FOLLOWED publish, or the dead-letter handling
when the broker rejects it. -/
def followTail (env : Env) (req : Request) : FollowTxResult → List Action
  | FollowTxResult.alreadyExists _ _ => []
  | FollowTxResult.created f g _ =>
    if env.publishFails then
      deadLetterPath env "follow" req.userId req.paramsId "Failed to publish message"
    else
      [Action.publish ⟨TOPIC_USER_FOLLOWED,
        Payload.followed req.userId req.paramsId f.authUserId g.authUserId,
        some ("follow-" ++ req.userId ++ "-" ++ req.paramsId)⟩]

/-- `followUser(req, res)`: validate ids, answer 202 immediately, then run
the background transaction, cache invalidation, event publish and
dead-letter handling.  Returns the ordered effect trace and the final DB. -/
def followUser (env : Env) (db : DB) (req : Request) (now : Nat) : List Action × DB :=
  let followingId := req.paramsId
  let followerId := req.userId
  if followerId == "" || followingId == "" then
    ([Action.respond (Response.badRequest "Missing required user IDs")], db)
  else
    let resp := Action.respond
      (Response.accepted "Follow request accepted" "processing" followerId followingId)
    match followTx env db followerId followingId now with
    | Except.error e =>
      (resp :: deadLetterPath env "follow" followerId followingId e, db)
    | Except.ok (txr, db') =>
      let cacheActs := invalidateAll env (relationshipCacheKeys followerId followingId)
      match txr with
      | FollowTxResult.alreadyExists _ _ =>
        (resp :: Action.txCommit :: cacheActs, db')
      | FollowTxResult.created follower following _ =>
        let msg : Msg := ⟨TOPIC_USER_FOLLOWED,
          Payload.followed followerId followingId follower.authUserId following.authUserId,
          some ("follow-" ++ followerId ++ "-" ++ followingId)⟩
        if env.publishFails then
          (resp :: Action.txCommit ::
            (cacheActs ++ deadLetterPath env "follow" followerId followingId
              "Failed to publish message"), db')
        else
          (resp :: Action.txCommit :: (cacheActs ++ [Action.publish msg]), db')

/-- Deletion of the row with the given composite key. -/
def removeEdge (db : DB) (followerId followingId : String) : DB :=
  let remaining := db.follows.filter
    (fun e => !(e.followerId == followerId && e.followingId == followingId))
  { db with follows := remaining }

/-- The `prisma.$transaction` callback of `unfollowUser`: look up the edge;
absence is a failure ("Relationship does not exist"); otherwise delete the
row with that composite key. -/
def unfollowTx (db : DB) (followerId followingId : String) :
    Except String DB :=
  match findEdge db followerId followingId with
  | none => Except.error "Relationship does not exist"
  | some _ => Except.ok (removeEdge db followerId followingId)

/-- `unfollowUser(req, res)`: validate ids, answer 202 immediately, then run
the background delete, cache invalidation, event publish and dead-letter
handling. -/
def unfollowUser (env : Env) (db : DB) (req : Request) : List Action × DB :=
  let followingId := req.paramsId
  let followerId := req.userId
  if followerId == "" || followingId == "" then
    ([Action.respond (Response.badRequest "Missing required user IDs")], db)
  else
    let resp := Action.respond
      (Response.accepted "Unfollow request accepted" "processing" followerId followingId)
    match unfollowTx db followerId followingId with
    | Except.error e =>
      (resp :: deadLetterPath env "unfollow" followerId followingId e, db)
    | Except.ok db' =>
      let cacheActs := invalidateAll env (relationshipCacheKeys followerId followingId)
      let msg : Msg := ⟨TOPIC_USER_UNFOLLOWED,
        Payload.unfollowed followerId followingId,
        some ("unfollow-" ++ followerId ++ "-" ++ followingId)⟩
      if env.publishFails then
        (resp :: Action.txCommit ::
          (cacheActs ++ deadLetterPath env "unfollow" followerId followingId
            "Failed to publish message"), db')
      else
        (resp :: Action.txCommit :: (cacheActs ++ [Action.publish msg]), db')

/-- Pagination metadata returned by the list endpoints. -/
structure Pagination where
  page : Nat
  limit : Nat
  total : Nat
  hasMore : Bool
deriving Repr, DecidableEq

/-- Result of a list endpoint: the page of edges (the HTTP body additionally
maps each edge to its included `User` row) and the pagination metadata. -/
structure PageResult where
  items : List Edge
  pagination : Pagination
deriving Repr, DecidableEq

/-- `orderBy: { createdAt: 'desc' }` — most recently created first. -/
def sortByCreatedDesc (l : List Edge) : List Edge :=
  l.mergeSort (fun a b => b.createdAt ≤ a.createdAt)

/-- Shared body of `getFollowers`/`getFollowing`: one transaction computes the
count and the ordered page over the rows selected by `keep`, with
`skip = (page-1)*limit`, `take = limit`, and
`hasMore = skip + items.length < total`. -/
def listPage (rows : List Edge) (page limit : Nat) : PageResult :=
  let skip := (page - 1) * limit
  let sorted := sortByCreatedDesc rows
  let totalCount := rows.length
  let items := (sorted.drop skip).take limit
  { items := items,
    pagination :=
      { page := page, limit := limit, total := totalCount,
        hasMore := decide (skip + items.length < totalCount) } }

/-- `getFollowers(req, res)`: rows with `followingId = id`. -/
def getFollowers (db : DB) (id : String) (page limit : Nat) : PageResult :=
  listPage (db.follows.filter (fun e => e.followingId == id)) page limit

/-- `getFollowing(req, res)`: rows with `followerId = id`. -/
def getFollowing (db : DB) (id : String) (page limit : Nat) : PageResult :=
  listPage (db.follows.filter (fun e => e.followerId == id)) page limit

/-- Number of `Follows` rows for the ordered pair. -/
def edgeCount (db : DB) (followerId followingId : String) : Nat :=
  (db.follows.filter
    (fun e => e.followerId == followerId && e.followingId == followingId)).length

/-- Number of successful publishes with the given topic in a trace. -/
def publishCount (tr : List Action) (topic : String) : Nat :=
  tr.countP (fun a => match a with
    | Action.publish m => m.topic == topic
    | _ => false)

/-- The cache keys whose invalidation was attempted in a trace, in order. -/
def invalidations (tr : List Action) : List String :=
  tr.filterMap (fun a => match a with
    | Action.invalidate k => some k
    | _ => none)

/-- A benign environment: no race, no broker failure, no cache failure. -/
def envOK : Env := ⟨false, false, false, []⟩

/-- A store with two users and no edges, used to instantiate theorems. -/
def dbTwoUsers : DB := ⟨[⟨"u1", "a1"⟩, ⟨"u2", "a2"⟩], []⟩

/-- A store with two users and the edge u1 → u2, used to instantiate
theorems. -/
def dbWithEdge : DB := ⟨[⟨"u1", "a1"⟩, ⟨"u2", "a2"⟩], [⟨"u1", "u2", 7⟩]⟩

/-- An environment whose only fault is a rejecting broker publish. -/
def envPubFail : Env := ⟨false, true, false, []⟩

/-- An environment where a concurrent duplicate insert wins the race, so the
edge insert raises the store's uniqueness-constraint violation. -/
def envRace : Env := ⟨true, false, false, []⟩

/-- A store with three edges pointing at user b, used to instantiate the
pagination theorem. -/
def dbThreeEdges : DB := ⟨[], [⟨"a", "b", 1⟩, ⟨"c", "b", 3⟩, ⟨"d", "b", 2⟩]⟩

/-- `publishCount` distributes over trace concatenation. -/
theorem publishCount_append (t : String) (l1 l2 : List Action) :
    publishCount (l1 ++ l2) t = publishCount l1 t + publishCount l2 t :=
  List.countP_append _ _ _

/-- `invalidations` distributes over trace concatenation. -/
theorem invalidations_append (l1 l2 : List Action) :
    invalidations (l1 ++ l2) = invalidations l1 ++ invalidations l2 :=
  List.filterMap_append _ _ _

/-- The empty trace publishes nothing. -/
theorem publishCount_nil (t : String) : publishCount [] t = 0 := rfl

/-- `publishCount` over a cons: only a publish with the matching topic
counts. -/
theorem publishCount_cons (a : Action) (tr : List Action) (t : String) :
    publishCount (a :: tr) t =
      publishCount tr t +
        (match a with
          | Action.publish m => if m.topic == t then 1 else 0
          | _ => 0) := by
  cases a <;> simp [publishCount, List.countP_cons]

/-- `invalidations` over a cons: only an invalidate action records a key. -/
theorem invalidations_cons (a : Action) (tr : List Action) :
    invalidations (a :: tr) =
      (match a with
        | Action.invalidate k => [k]
        | _ => []) ++ invalidations tr := by
  cases a <;> simp [invalidations, List.filterMap_cons]

/-- One cache invalidation publishes nothing. -/
theorem publishCount_invalidateCache (env : Env) (k t : String) :
    publishCount (invalidateCache env k) t = 0 := by
  by_cases h : k ∈ env.cacheFails <;> simp [invalidateCache, h, publishCount]

/-- One cache invalidation attempt records exactly its key. -/
theorem invalidations_invalidateCache (env : Env) (k : String) :
    invalidations (invalidateCache env k) = [k] := by
  by_cases h : k ∈ env.cacheFails <;> simp [invalidateCache, h, invalidations]

/-- `invalidateAll` only emits invalidate and log actions, so it publishes
nothing on any topic. -/
theorem publishCount_invalidateAll (env : Env) (keys : List String) (t : String) :
    publishCount (invalidateAll env keys) t = 0 := by
  induction keys with
  | nil => rfl
  | cons k ks ih =>
    have h1 : invalidateAll env (k :: ks) = invalidateCache env k ++ invalidateAll env ks := by
      simp [invalidateAll]
    rw [h1, publishCount_append, publishCount_invalidateCache, ih]

/-- The invalidation attempts of `invalidateAll` are exactly the given keys. -/
theorem invalidations_invalidateAll (env : Env) (keys : List String) :
    invalidations (invalidateAll env keys) = keys := by
  induction keys with
  | nil => rfl
  | cons k ks ih =>
    have h1 : invalidateAll env (k :: ks) = invalidateCache env k ++ invalidateAll env ks := by
      simp [invalidateAll]
    rw [h1, invalidations_append, invalidations_invalidateCache, ih]
    rfl

/-- The dead-letter path performs no cache invalidation. -/
theorem invalidations_deadLetterPath (env : Env) (op a b e : String) :
    invalidations (deadLetterPath env op a b e) = [] := by
  cases h : env.dlqFails <;> simp [deadLetterPath, invalidations, h]

/-- If the unique lookup finds no edge for the pair, the table holds no row
for the pair. -/
theorem filter_eq_nil_of_findEdge_none {db : DB} {a b : String}
    (h : findEdge db a b = none) :
    db.follows.filter (fun e => e.followerId == a && e.followingId == b) = [] := by
  rw [findEdge, List.find?_eq_none] at h
  exact List.filter_eq_nil_iff.mpr h

/-- Characterization of the follow handler on the genuinely-new-edge branch:
the trace is the 202 response, the transaction commit of the inserted edge,
the four cache invalidations, and then either the USER_FOLLOWED publish or,
when the broker rejects it, the dead-letter handling; the final store holds
the new edge in every case. -/
theorem followUser_created_eq (env : Env) (db : DB) (req : Request) (now : Nat)
    {fa fb : User}
    (ha : req.userId ≠ "") (hb : req.paramsId ≠ "")
    (hrace : env.insertRaces = false)
    (hfa : findUser db req.userId = some fa) (hfb : findUser db req.paramsId = some fb)
    (hedge : findEdge db req.userId req.paramsId = none) :
    followUser env db req now =
      (Action.respond
          (Response.accepted "Follow request accepted" "processing" req.userId req.paramsId)
        :: Action.txCommit ::
        (invalidateAll env (relationshipCacheKeys req.userId req.paramsId) ++
          (if env.publishFails then
            deadLetterPath env "follow" req.userId req.paramsId "Failed to publish message"
          else
            [Action.publish ⟨TOPIC_USER_FOLLOWED,
              Payload.followed req.userId req.paramsId fa.authUserId fb.authUserId,
              some ("follow-" ++ req.userId ++ "-" ++ req.paramsId)⟩])),
       { db with follows := ⟨req.userId, req.paramsId, now⟩ :: db.follows }) := by
  have hcond : (req.userId == "" || req.paramsId == "") = false := by
    simp [ha, hb]
  have htx : followTx env db req.userId req.paramsId now =
      Except.ok (FollowTxResult.created fa fb ⟨req.userId, req.paramsId, now⟩,
        { db with follows := ⟨req.userId, req.paramsId, now⟩ :: db.follows }) := by
    simp [followTx, hfa, hfb, hedge, hrace]
  rw [followUser]
  simp only [hcond, Bool.false_eq_true, if_false, htx]
  cases hp : env.publishFails <;> simp [hp]

/-- Characterization of the follow handler on the idempotent already-exists
branch: the trace is the 202 response, the transaction commit, and the four
cache invalidations — no publish of any kind — and the store is unchanged. -/
theorem followUser_alreadyExists_eq (env : Env) (db : DB) (req : Request) (now : Nat)
    {fa fb : User} {e : Edge}
    (ha : req.userId ≠ "") (hb : req.paramsId ≠ "")
    (hfa : findUser db req.userId = some fa) (hfb : findUser db req.paramsId = some fb)
    (hedge : findEdge db req.userId req.paramsId = some e) :
    followUser env db req now =
      (Action.respond
          (Response.accepted "Follow request accepted" "processing" req.userId req.paramsId)
        :: Action.txCommit ::
        invalidateAll env (relationshipCacheKeys req.userId req.paramsId),
       db) := by
  have hcond : (req.userId == "" || req.paramsId == "") = false := by
    simp [ha, hb]
  have htx : followTx env db req.userId req.paramsId now =
      Except.ok (FollowTxResult.alreadyExists fa fb, db) := by
    simp [followTx, hfa, hfb, hedge]
  rw [followUser]
  simp only [hcond, Bool.false_eq_true, if_false, htx]

/-- Characterization of the unfollow handler when the edge exists: the trace
is the 202 response, the transaction commit of the deletion, the four cache
invalidations, and then either the USER_UNFOLLOWED publish or, when the
broker rejects it, the dead-letter handling; the final store has the rows
with that composite key removed in every case. -/
theorem unfollowUser_deleted_eq (env : Env) (db : DB) (req : Request)
    {e : Edge}
    (ha : req.userId ≠ "") (hb : req.paramsId ≠ "")
    (hedge : findEdge db req.userId req.paramsId = some e) :
    unfollowUser env db req =
      (Action.respond
          (Response.accepted "Unfollow request accepted" "processing" req.userId req.paramsId)
        :: Action.txCommit ::
        (invalidateAll env (relationshipCacheKeys req.userId req.paramsId) ++
          (if env.publishFails then
            deadLetterPath env "unfollow" req.userId req.paramsId "Failed to publish message"
          else
            [Action.publish ⟨TOPIC_USER_UNFOLLOWED,
              Payload.unfollowed req.userId req.paramsId,
              some ("unfollow-" ++ req.userId ++ "-" ++ req.paramsId)⟩])),
       removeEdge db req.userId req.paramsId) := by
  have hcond : (req.userId == "" || req.paramsId == "") = false := by
    simp [ha, hb]
  have htx : unfollowTx db req.userId req.paramsId =
      Except.ok (removeEdge db req.userId req.paramsId) := by
    simp [unfollowTx, hedge]
  rw [unfollowUser]
  simp only [hcond, Bool.false_eq_true, if_false, htx]
  cases hp : env.publishFails <;> simp [hp]

/-- Characterization of the follow handler when the uniqueness constraint
fires during the insert (a concurrent duplicate won the race): the error
falls into the generic catch block — no commit, no cache invalidation, no
USER_FOLLOWED publish, just the error log and dead-letter handling — and
this request leaves the store unchanged. -/
theorem followUser_race_eq (env : Env) (db : DB) (req : Request) (now : Nat)
    {fa fb : User}
    (ha : req.userId ≠ "") (hb : req.paramsId ≠ "")
    (hrace : env.insertRaces = true)
    (hfa : findUser db req.userId = some fa) (hfb : findUser db req.paramsId = some fb)
    (hedge : findEdge db req.userId req.paramsId = none) :
    followUser env db req now =
      (Action.respond
          (Response.accepted "Follow request accepted" "processing" req.userId req.paramsId)
        :: deadLetterPath env "follow" req.userId req.paramsId uniqueViolationMsg,
       db) := by
  have hcond : (req.userId == "" || req.paramsId == "") = false := by
    simp [ha, hb]
  have htx : followTx env db req.userId req.paramsId now =
      Except.error uniqueViolationMsg := by
    simp [followTx, hfa, hfb, hedge, hrace]
  rw [followUser]
  simp only [hcond, Bool.false_eq_true, if_false, htx]

/-- C2: every follow (and unfollow) request is answered before any database
work: with both ids present the very first action of the trace is the
202 Accepted response `{message, status: "processing", followerId,
followingId}`; with either id missing the handler performs exactly one
action — the 400 response — and the store is untouched (no database, cache
or event work). -/
theorem follow_unfollow_immediate_response (env : Env) (db : DB) (req : Request) (now : Nat) :
    ((req.userId = "" ∨ req.paramsId = "") →
      followUser env db req now
          = ([Action.respond (Response.badRequest "Missing required user IDs")], db)
        ∧ unfollowUser env db req
          = ([Action.respond (Response.badRequest "Missing required user IDs")], db))
    ∧ (req.userId ≠ "" → req.paramsId ≠ "" →
      (followUser env db req now).1.head?
          = some (Action.respond
              (Response.accepted "Follow request accepted" "processing" req.userId req.paramsId))
        ∧ (unfollowUser env db req).1.head?
          = some (Action.respond
              (Response.accepted "Unfollow request accepted" "processing" req.userId req.paramsId))) := by
  constructor
  · intro h
    have hcond : (req.userId == "" || req.paramsId == "") = true := by
      rcases h with h | h <;> simp [h]
    constructor <;> simp [followUser, unfollowUser, hcond]
  · intro h1 h2
    have hcond : (req.userId == "" || req.paramsId == "") = false := by
      simp [h1, h2]
    constructor
    · rw [followUser]
      simp only [hcond, Bool.false_eq_true, if_false]
      cases htx : followTx env db req.userId req.paramsId now with
      | error e => simp
      | ok v =>
        obtain ⟨txr, db'⟩ := v
        cases txr <;> cases hp : env.publishFails <;> simp [hp]
    · rw [unfollowUser]
      simp only [hcond, Bool.false_eq_true, if_false]
      cases htx : unfollowTx db req.userId req.paramsId with
      | error e => simp
      | ok db' => cases hp : env.publishFails <;> simp [hp]

/-- C2 witness: a request with a missing follower id gets the bare 400; a
well-formed request's first action is the 202 Accepted response. -/
theorem follow_unfollow_immediate_response_witness :
    (followUser envOK dbTwoUsers ⟨"u2", ""⟩ 0
        = ([Action.respond (Response.badRequest "Missing required user IDs")], dbTwoUsers))
    ∧ (followUser envOK dbTwoUsers ⟨"u2", "u1"⟩ 0).1.head?
        = some (Action.respond
            (Response.accepted "Follow request accepted" "processing" "u1" "u2")) :=
  ⟨((follow_unfollow_immediate_response envOK dbTwoUsers ⟨"u2", ""⟩ 0).1 (Or.inl rfl)).1,
   ((follow_unfollow_immediate_response envOK dbTwoUsers ⟨"u2", "u1"⟩ 0).2
      (by decide) (by decide)).1⟩

/-- C7: when either participant id of a follow does not resolve to a `User`
row, the background transaction aborts: the final store equals the initial
one (no edge created), there is no commit and no retry — the whole trace is
the 202 response, one error log, and the dead-letter handling, which
publishes a message carrying operation "follow", both ids and the error
message when the dead-letter channel is up, and only logs when even that
publish fails (the process never crashes: the trace is total). -/
theorem follow_missing_user_dead_letter (env : Env) (db : DB) (req : Request) (now : Nat)
    (ha : req.userId ≠ "") (hb : req.paramsId ≠ "")
    (hmiss : findUser db req.userId = none ∨ findUser db req.paramsId = none) :
    followUser env db req now =
      (Action.respond
          (Response.accepted "Follow request accepted" "processing" req.userId req.paramsId) ::
        Action.log "Error in async follow processing: One or more users not found" ::
        (if env.dlqFails then
          [Action.log "Failed to publish follow error event"]
        else
          [Action.publish ⟨TOPIC_DEAD_LETTER_QUEUE,
            Payload.deadLetter "follow" req.userId req.paramsId "One or more users not found",
            none⟩]),
       db) := by
  have hcond : (req.userId == "" || req.paramsId == "") = false := by
    simp [ha, hb]
  have htx : followTx env db req.userId req.paramsId now
      = Except.error "One or more users not found" := by
    rcases hmiss with h | h
    · simp [followTx, h]
    · cases h2 : findUser db req.userId <;> simp [followTx, h, h2]
  rw [followUser]
  simp only [hcond, Bool.false_eq_true, if_false, htx]
  cases hd : env.dlqFails <;> simp [deadLetterPath, hd]

/-- C7 witness: following the unknown user "u2" from the one-user store
dead-letters the failure and leaves the store unchanged. -/
theorem follow_missing_user_dead_letter_witness :
    followUser envOK ⟨[⟨"u1", "a1"⟩], []⟩ ⟨"u2", "u1"⟩ 0 =
      (Action.respond (Response.accepted "Follow request accepted" "processing" "u1" "u2") ::
        Action.log "Error in async follow processing: One or more users not found" ::
        (if envOK.dlqFails then
          [Action.log "Failed to publish follow error event"]
        else
          [Action.publish ⟨TOPIC_DEAD_LETTER_QUEUE,
            Payload.deadLetter "follow" "u1" "u2" "One or more users not found",
            none⟩]),
       (⟨[⟨"u1", "a1"⟩], []⟩ : DB)) :=
  follow_missing_user_dead_letter envOK ⟨[⟨"u1", "a1"⟩], []⟩ ⟨"u2", "u1"⟩ 0
    (by decide) (by decide) (Or.inr (by decide))

/-- C3: unfollow of a missing edge is a dead-lettered failure, not an
idempotent no-op: the store is unchanged (nothing deleted), no
USER_UNFOLLOWED event is published, and the trace is exactly the 202
response, one error log, and the dead-letter handling carrying operation
"unfollow", both ids and the error message (only a log when the dead-letter
publish itself fails; the process never crashes: the trace is total). -/
theorem unfollow_missing_edge_dead_letter (env : Env) (db : DB) (req : Request)
    (ha : req.userId ≠ "") (hb : req.paramsId ≠ "")
    (hedge : findEdge db req.userId req.paramsId = none) :
    unfollowUser env db req =
      (Action.respond
          (Response.accepted "Unfollow request accepted" "processing" req.userId req.paramsId) ::
        Action.log "Error in async unfollow processing: Relationship does not exist" ::
        (if env.dlqFails then
          [Action.log "Failed to publish unfollow error event"]
        else
          [Action.publish ⟨TOPIC_DEAD_LETTER_QUEUE,
            Payload.deadLetter "unfollow" req.userId req.paramsId "Relationship does not exist",
            none⟩]),
       db)
    ∧ publishCount (unfollowUser env db req).1 TOPIC_USER_UNFOLLOWED = 0 := by
  have hcond : (req.userId == "" || req.paramsId == "") = false := by
    simp [ha, hb]
  have htx : unfollowTx db req.userId req.paramsId
      = Except.error "Relationship does not exist" := by
    simp [unfollowTx, hedge]
  have htrace : unfollowUser env db req =
      (Action.respond
          (Response.accepted "Unfollow request accepted" "processing" req.userId req.paramsId) ::
        Action.log "Error in async unfollow processing: Relationship does not exist" ::
        (if env.dlqFails then
          [Action.log "Failed to publish unfollow error event"]
        else
          [Action.publish ⟨TOPIC_DEAD_LETTER_QUEUE,
            Payload.deadLetter "unfollow" req.userId req.paramsId "Relationship does not exist",
            none⟩]),
       db) := by
    rw [unfollowUser]
    simp only [hcond, Bool.false_eq_true, if_false, htx]
    cases hd : env.dlqFails <;> simp [deadLetterPath, hd]
  refine ⟨htrace, ?_⟩
  rw [htrace]
  cases hd : env.dlqFails <;> simp [publishCount, hd, TOPIC_USER_UNFOLLOWED,
    TOPIC_DEAD_LETTER_QUEUE, List.countP_cons]

/-- C3 witness: unfollowing "u2" from "u1" on the empty edge table
dead-letters the failure, deletes nothing and publishes no unfollow event. -/
theorem unfollow_missing_edge_dead_letter_witness :
    (unfollowUser envOK dbTwoUsers ⟨"u2", "u1"⟩ =
      (Action.respond (Response.accepted "Unfollow request accepted" "processing" "u1" "u2") ::
        Action.log "Error in async unfollow processing: Relationship does not exist" ::
        (if envOK.dlqFails then
          [Action.log "Failed to publish unfollow error event"]
        else
          [Action.publish ⟨TOPIC_DEAD_LETTER_QUEUE,
            Payload.deadLetter "unfollow" "u1" "u2" "Relationship does not exist",
            none⟩]),
       dbTwoUsers))
    ∧ publishCount (unfollowUser envOK dbTwoUsers ⟨"u2", "u1"⟩).1 TOPIC_USER_UNFOLLOWED = 0 :=
  unfollow_missing_edge_dead_letter envOK dbTwoUsers ⟨"u2", "u1"⟩
    (by decide) (by decide) (by decide)

/-- Characterization of the follow handler on any committed transaction:
response, commit, the four invalidations, then the branch-dependent tail. -/
theorem followUser_ok_eq (env : Env) (db : DB) (req : Request) (now : Nat)
    {txr : FollowTxResult} {db' : DB}
    (ha : req.userId ≠ "") (hb : req.paramsId ≠ "")
    (htx : followTx env db req.userId req.paramsId now = Except.ok (txr, db')) :
    followUser env db req now =
      (Action.respond
          (Response.accepted "Follow request accepted" "processing" req.userId req.paramsId)
        :: Action.txCommit ::
        (invalidateAll env (relationshipCacheKeys req.userId req.paramsId) ++
          followTail env req txr),
       db') := by
  have hcond : (req.userId == "" || req.paramsId == "") = false := by
    simp [ha, hb]
  rw [followUser]
  simp only [hcond, Bool.false_eq_true, if_false, htx]
  cases txr with
  | alreadyExists f g => simp [followTail]
  | created f g e => cases hp : env.publishFails <;> simp [hp, followTail]

/-- A key that is in the list and among the failing keys leaves its failure
log line in the invalidation trace. -/
theorem log_mem_invalidateAll (env : Env) {k : String} {keys : List String}
    (hk : k ∈ keys) (hf : k ∈ env.cacheFails) :
    Action.log ("Cache invalidation failed: " ++ k) ∈ invalidateAll env keys := by
  induction keys with
  | nil => cases hk
  | cons a as ih =>
    have hsplit : invalidateAll env (a :: as)
        = invalidateCache env a ++ invalidateAll env as := by
      simp [invalidateAll]
    rw [hsplit]
    rcases List.mem_cons.mp hk with h | h
    · subst h
      exact List.mem_append_left _ (by simp [invalidateCache, hf])
    · exact List.mem_append_right _ (ih h)

/-- Publishes of the dead-letter path: one DEAD_LETTER_QUEUE message when the
dead-letter channel is up, none otherwise. -/
theorem publishCount_deadLetterPath (env : Env) (op a b e t : String) :
    publishCount (deadLetterPath env op a b e) t =
      if env.dlqFails then 0 else (if TOPIC_DEAD_LETTER_QUEUE = t then 1 else 0) := by
  cases hd : env.dlqFails <;>
    simp [deadLetterPath, hd, publishCount, List.countP_cons]

/-- The empty trace records no invalidation. -/
theorem invalidations_nil : invalidations [] = [] := rfl

/-- Publishes of the follow tail: at most the one USER_FOLLOWED or
dead-letter message, depending on the branch and the broker. -/
theorem publishCount_followTail (env : Env) (req : Request) (txr : FollowTxResult)
    (t : String) :
    publishCount (followTail env req txr) t =
      match txr with
      | FollowTxResult.alreadyExists _ _ => 0
      | FollowTxResult.created _ _ _ =>
        if env.publishFails then
          (if env.dlqFails then 0 else (if TOPIC_DEAD_LETTER_QUEUE = t then 1 else 0))
        else (if TOPIC_USER_FOLLOWED = t then 1 else 0) := by
  cases txr with
  | alreadyExists f g => rfl
  | created f g e =>
    cases hp : env.publishFails <;>
      simp [followTail, hp, publishCount_cons, publishCount_nil, publishCount_deadLetterPath]

/-- C5: after a committed follow transaction (either a new edge or the
idempotent no-op) and after a successful unfollow deletion, the attempted
cache invalidations are exactly the four keys — target's profile, follower's
profile, follower's following list, target's followers list — whatever keys
fail; a failing key leaves a log line in the trace; and cache failures are
not fatal: the publishes of the operation are identical to those of the same
run with no cache failures at all. -/
theorem four_cache_keys_invalidated (env : Env) (db : DB) (req : Request) (now : Nat)
    (ha : req.userId ≠ "") (hb : req.paramsId ≠ "")
    (hok : ∃ r, followTx env db req.userId req.paramsId now = Except.ok r) :
    invalidations (followUser env db req now).1
        = relationshipCacheKeys req.userId req.paramsId
    ∧ (∀ db', unfollowTx db req.userId req.paramsId = Except.ok db' →
        invalidations (unfollowUser env db req).1
          = relationshipCacheKeys req.userId req.paramsId)
    ∧ (∀ k ∈ relationshipCacheKeys req.userId req.paramsId, k ∈ env.cacheFails →
        Action.log ("Cache invalidation failed: " ++ k) ∈ (followUser env db req now).1)
    ∧ (∀ t, publishCount (followUser env db req now).1 t
        = publishCount (followUser ⟨env.insertRaces, env.publishFails, env.dlqFails, []⟩
            db req now).1 t) := by
  obtain ⟨⟨txr, db'⟩, htx⟩ := hok
  have h1 := followUser_ok_eq env db req now ha hb htx
  refine ⟨?_, ?_, ?_, ?_⟩
  · rw [h1]
    cases txr with
    | alreadyExists f g =>
      simp only [invalidations_cons, invalidations_append, invalidations_invalidateAll,
        followTail, invalidations_nil, List.append_nil, List.nil_append]
    | created f g e =>
      cases hp : env.publishFails <;>
        simp only [invalidations_cons, invalidations_append, invalidations_invalidateAll,
          invalidations_deadLetterPath, followTail, hp, Bool.false_eq_true, if_false, if_true,
          invalidations_nil, List.append_nil, List.nil_append]
  · intro db2 hutx
    cases hedge : findEdge db req.userId req.paramsId with
    | none => simp [unfollowTx, hedge] at hutx
    | some e =>
      rw [unfollowUser_deleted_eq env db req ha hb hedge]
      cases hp : env.publishFails <;>
        simp only [invalidations_cons, invalidations_append, invalidations_invalidateAll,
          invalidations_deadLetterPath, hp, Bool.false_eq_true, if_false, if_true,
          invalidations_nil, List.append_nil, List.nil_append]
  · intro k hk hf
    rw [h1]
    exact List.mem_cons_of_mem _ (List.mem_cons_of_mem _
      (List.mem_append_left _ (log_mem_invalidateAll env hk hf)))
  · intro t
    have htx0 : followTx ⟨env.insertRaces, env.publishFails, env.dlqFails, []⟩
        db req.userId req.paramsId now = Except.ok (txr, db') := htx
    have h0 := followUser_ok_eq ⟨env.insertRaces, env.publishFails, env.dlqFails, []⟩
      db req now ha hb htx0
    rw [h1, h0]
    simp only [publishCount_cons, publishCount_append, publishCount_invalidateAll,
      publishCount_nil, publishCount_followTail]

/-- C5 witness: a follow on the two-user store with the follower-profile key
failing still attempts all four keys, logs the failure, and publishes the
same events as the failure-free run. -/
theorem four_cache_keys_invalidated_witness :
    invalidations (followUser ⟨false, false, false, ["user:profile:u1"]⟩
        dbTwoUsers ⟨"u2", "u1"⟩ 0).1 = relationshipCacheKeys "u1" "u2"
    ∧ (Action.log ("Cache invalidation failed: " ++ "user:profile:u1")
        ∈ (followUser ⟨false, false, false, ["user:profile:u1"]⟩ dbTwoUsers ⟨"u2", "u1"⟩ 0).1)
    ∧ publishCount (followUser ⟨false, false, false, ["user:profile:u1"]⟩
        dbTwoUsers ⟨"u2", "u1"⟩ 0).1 TOPIC_USER_FOLLOWED
      = publishCount (followUser ⟨false, false, false, []⟩ dbTwoUsers ⟨"u2", "u1"⟩ 0).1
          TOPIC_USER_FOLLOWED :=
  ⟨(four_cache_keys_invalidated ⟨false, false, false, ["user:profile:u1"]⟩ dbTwoUsers
      ⟨"u2", "u1"⟩ 0 (by decide) (by decide)
      ⟨(FollowTxResult.created ⟨"u1", "a1"⟩ ⟨"u2", "a2"⟩ ⟨"u1", "u2", 0⟩,
        { dbTwoUsers with follows := [⟨"u1", "u2", 0⟩] }), by rfl⟩).1,
   (four_cache_keys_invalidated ⟨false, false, false, ["user:profile:u1"]⟩ dbTwoUsers
      ⟨"u2", "u1"⟩ 0 (by decide) (by decide)
      ⟨(FollowTxResult.created ⟨"u1", "a1"⟩ ⟨"u2", "a2"⟩ ⟨"u1", "u2", 0⟩,
        { dbTwoUsers with follows := [⟨"u1", "u2", 0⟩] }), by rfl⟩).2.2.1
      "user:profile:u1" (by decide) (by decide),
   (four_cache_keys_invalidated ⟨false, false, false, ["user:profile:u1"]⟩ dbTwoUsers
      ⟨"u2", "u1"⟩ 0 (by decide) (by decide)
      ⟨(FollowTxResult.created ⟨"u1", "a1"⟩ ⟨"u2", "a2"⟩ ⟨"u1", "u2", 0⟩,
        { dbTwoUsers with follows := [⟨"u1", "u2", 0⟩] }), by rfl⟩).2.2.2
      TOPIC_USER_FOLLOWED⟩

/-- C6: within one follow/unfollow background phase the effects are strictly
ordered — the transaction commit precedes the four cache invalidations,
which precede the event publish (or, on a broker failure, the dead-letter
handling) — and the committed write survives any publish failure: the final
store after a new-edge follow is the store with the edge inserted, and
after an edge deletion the store with the row removed, for every
environment with the same race behaviour (in particular whether or not the
publish fails, and whatever cache keys fail). -/
theorem background_effects_ordered (env : Env) (db : DB) (req : Request) (now : Nat)
    {fa fb : User}
    (ha : req.userId ≠ "") (hb : req.paramsId ≠ "")
    (hrace : env.insertRaces = false)
    (hfa : findUser db req.userId = some fa) (hfb : findUser db req.paramsId = some fb) :
    (findEdge db req.userId req.paramsId = none →
      followUser env db req now =
        (Action.respond
            (Response.accepted "Follow request accepted" "processing" req.userId req.paramsId)
          :: Action.txCommit ::
          (invalidateAll env (relationshipCacheKeys req.userId req.paramsId) ++
            (if env.publishFails then
              deadLetterPath env "follow" req.userId req.paramsId "Failed to publish message"
            else
              [Action.publish ⟨TOPIC_USER_FOLLOWED,
                Payload.followed req.userId req.paramsId fa.authUserId fb.authUserId,
                some ("follow-" ++ req.userId ++ "-" ++ req.paramsId)⟩])),
         { db with follows := ⟨req.userId, req.paramsId, now⟩ :: db.follows }))
    ∧ (findEdge db req.userId req.paramsId = none →
        ∀ env' : Env, env'.insertRaces = false →
          (followUser env' db req now).2
            = { db with follows := ⟨req.userId, req.paramsId, now⟩ :: db.follows })
    ∧ (∀ e, findEdge db req.userId req.paramsId = some e →
        unfollowUser env db req =
          (Action.respond
              (Response.accepted "Unfollow request accepted" "processing" req.userId req.paramsId)
            :: Action.txCommit ::
            (invalidateAll env (relationshipCacheKeys req.userId req.paramsId) ++
              (if env.publishFails then
                deadLetterPath env "unfollow" req.userId req.paramsId "Failed to publish message"
              else
                [Action.publish ⟨TOPIC_USER_UNFOLLOWED,
                  Payload.unfollowed req.userId req.paramsId,
                  some ("unfollow-" ++ req.userId ++ "-" ++ req.paramsId)⟩])),
           removeEdge db req.userId req.paramsId))
    ∧ (∀ e, findEdge db req.userId req.paramsId = some e →
        ∀ env' : Env, (unfollowUser env' db req).2 = removeEdge db req.userId req.paramsId) := by
  refine ⟨?_, ?_, ?_, ?_⟩
  · intro hedge
    exact followUser_created_eq env db req now ha hb hrace hfa hfb hedge
  · intro hedge env' hrace'
    rw [followUser_created_eq env' db req now ha hb hrace' hfa hfb hedge]
  · intro e hedge
    exact unfollowUser_deleted_eq env db req ha hb hedge
  · intro e hedge env'
    rw [unfollowUser_deleted_eq env' db req ha hb hedge]

/-- C6 witness: with a rejecting broker, a follow on the two-user store still
commits the edge and invalidates the caches before dead-lettering, and an
unfollow on the store with the edge still removes it. -/
theorem background_effects_ordered_witness :
    (followUser envPubFail dbTwoUsers ⟨"u2", "u1"⟩ 3).2
        = { dbTwoUsers with follows := ⟨"u1", "u2", 3⟩ :: dbTwoUsers.follows }
    ∧ (unfollowUser envPubFail dbWithEdge ⟨"u2", "u1"⟩).2 = removeEdge dbWithEdge "u1" "u2" :=
  ⟨((@background_effects_ordered envPubFail dbTwoUsers ⟨"u2", "u1"⟩ 3
      ⟨"u1", "a1"⟩ ⟨"u2", "a2"⟩ (by decide) (by decide) (by decide) (by decide)
      (by decide)).2.1 (by decide) envPubFail (by decide)),
   ((@background_effects_ordered envPubFail dbWithEdge ⟨"u2", "u1"⟩ 3
      ⟨"u1", "a1"⟩ ⟨"u2", "a2"⟩ (by decide) (by decide) (by decide) (by decide)
      (by decide)).2.2.2 ⟨"u1", "u2", 7⟩ (by decide) envPubFail)⟩

/-- C1: follow is idempotent.  For existing users A (follower) and B
(target) with no prior edge, running the follow operation twice leaves
exactly one Follows row for (A,B), publishes exactly one USER_FOLLOWED
event across both runs, and the second run takes the already-exists branch:
it changes nothing in the store, its trace is the 202 response, the commit
of the no-op transaction and the four cache invalidations, and it publishes
neither a duplicate event nor a dead-letter message. -/
theorem follow_idempotent (env : Env) (db : DB) (A B : String) (now1 now2 : Nat)
    {fa fb : User}
    (hA : A ≠ "") (hB : B ≠ "")
    (hrace : env.insertRaces = false) (hpub : env.publishFails = false)
    (hfa : findUser db A = some fa) (hfb : findUser db B = some fb)
    (hedge : findEdge db A B = none) :
    edgeCount (followUser env (followUser env db ⟨B, A⟩ now1).2 ⟨B, A⟩ now2).2 A B = 1
    ∧ publishCount ((followUser env db ⟨B, A⟩ now1).1
        ++ (followUser env (followUser env db ⟨B, A⟩ now1).2 ⟨B, A⟩ now2).1)
        TOPIC_USER_FOLLOWED = 1
    ∧ (followUser env (followUser env db ⟨B, A⟩ now1).2 ⟨B, A⟩ now2).2
        = (followUser env db ⟨B, A⟩ now1).2
    ∧ (followUser env (followUser env db ⟨B, A⟩ now1).2 ⟨B, A⟩ now2).1
        = Action.respond (Response.accepted "Follow request accepted" "processing" A B)
          :: Action.txCommit :: invalidateAll env (relationshipCacheKeys A B)
    ∧ publishCount (followUser env (followUser env db ⟨B, A⟩ now1).2 ⟨B, A⟩ now2).1
        TOPIC_DEAD_LETTER_QUEUE = 0 := by
  have h1 := followUser_created_eq env db ⟨B, A⟩ now1 hA hB hrace hfa hfb hedge
  simp only [hpub, Bool.false_eq_true, if_false] at h1
  have hfa1 : findUser { db with follows := ⟨A, B, now1⟩ :: db.follows } A = some fa := hfa
  have hfb1 : findUser { db with follows := ⟨A, B, now1⟩ :: db.follows } B = some fb := hfb
  have hedge1 : findEdge { db with follows := ⟨A, B, now1⟩ :: db.follows } A B
      = some ⟨A, B, now1⟩ :=
    List.find?_cons_of_pos _ (by simp)
  have h2 := followUser_alreadyExists_eq env { db with follows := ⟨A, B, now1⟩ :: db.follows }
    ⟨B, A⟩ now2 hA hB hfa1 hfb1 hedge1
  have hfilter : db.follows.filter (fun e => e.followerId == A && e.followingId == B) = [] :=
    filter_eq_nil_of_findEdge_none hedge
  rw [h1]
  simp only [h2]
  refine ⟨?_, ?_, trivial, trivial, ?_⟩
  · simp [edgeCount, List.filter_cons, hfilter]
  · rw [publishCount_append]
    simp only [publishCount_cons, publishCount_append, publishCount_invalidateAll,
      publishCount_nil]
    simp
  · simp only [publishCount_cons, publishCount_invalidateAll, publishCount_nil]

/-- C1 witness: following u2 from u1 twice on the two-user store leaves one
edge and one USER_FOLLOWED event; the second call is the no-op branch. -/
theorem follow_idempotent_witness :
    edgeCount (followUser envOK (followUser envOK dbTwoUsers ⟨"u2", "u1"⟩ 1).2
        ⟨"u2", "u1"⟩ 2).2 "u1" "u2" = 1
    ∧ publishCount ((followUser envOK dbTwoUsers ⟨"u2", "u1"⟩ 1).1
        ++ (followUser envOK (followUser envOK dbTwoUsers ⟨"u2", "u1"⟩ 1).2
            ⟨"u2", "u1"⟩ 2).1) TOPIC_USER_FOLLOWED = 1
    ∧ (followUser envOK (followUser envOK dbTwoUsers ⟨"u2", "u1"⟩ 1).2 ⟨"u2", "u1"⟩ 2).2
        = (followUser envOK dbTwoUsers ⟨"u2", "u1"⟩ 1).2
    ∧ (followUser envOK (followUser envOK dbTwoUsers ⟨"u2", "u1"⟩ 1).2 ⟨"u2", "u1"⟩ 2).1
        = Action.respond (Response.accepted "Follow request accepted" "processing" "u1" "u2")
          :: Action.txCommit :: invalidateAll envOK (relationshipCacheKeys "u1" "u2")
    ∧ publishCount (followUser envOK (followUser envOK dbTwoUsers ⟨"u2", "u1"⟩ 1).2
        ⟨"u2", "u1"⟩ 2).1 TOPIC_DEAD_LETTER_QUEUE = 0 :=
  @follow_idempotent envOK dbTwoUsers "u1" "u2" 1 2 ⟨"u1", "a1"⟩ ⟨"u2", "a2"⟩
    (by decide) (by decide) (by decide) (by decide) (by decide) (by decide) (by decide)

/-- C10: self-follows are permitted — the orchestrator never compares the
two ids.  For an existing user A with no prior self-edge, a follow request
with followerId = followingId = A runs the ordinary created branch: it
inserts the (A,A) edge and publishes the USER_FOLLOWED event exactly as for
a distinct pair. -/
theorem self_follow_permitted (env : Env) (db : DB) (A : String) (now : Nat)
    {fa : User}
    (hA : A ≠ "")
    (hrace : env.insertRaces = false) (hpub : env.publishFails = false)
    (hfa : findUser db A = some fa)
    (hedge : findEdge db A A = none) :
    followUser env db ⟨A, A⟩ now =
      (Action.respond (Response.accepted "Follow request accepted" "processing" A A)
        :: Action.txCommit ::
        (invalidateAll env (relationshipCacheKeys A A) ++
          [Action.publish ⟨TOPIC_USER_FOLLOWED,
            Payload.followed A A fa.authUserId fa.authUserId,
            some ("follow-" ++ A ++ "-" ++ A)⟩]),
       { db with follows := ⟨A, A, now⟩ :: db.follows }) := by
  have h := followUser_created_eq env db ⟨A, A⟩ now hA hA hrace hfa hfa hedge
  simpa only [hpub, Bool.false_eq_true, if_false] using h

/-- C10 witness: u1 following itself inserts the (u1,u1) edge and publishes
the self-follow event. -/
theorem self_follow_permitted_witness :
    followUser envOK dbTwoUsers ⟨"u1", "u1"⟩ 4 =
      (Action.respond (Response.accepted "Follow request accepted" "processing" "u1" "u1")
        :: Action.txCommit ::
        (invalidateAll envOK (relationshipCacheKeys "u1" "u1") ++
          [Action.publish ⟨TOPIC_USER_FOLLOWED,
            Payload.followed "u1" "u1" "a1" "a1",
            some ("follow-" ++ "u1" ++ "-" ++ "u1")⟩]),
       { dbTwoUsers with follows := ⟨"u1", "u1", 4⟩ :: dbTwoUsers.follows }) :=
  @self_follow_permitted envOK dbTwoUsers "u1" 4 ⟨"u1", "a1"⟩
    (by decide) (by decide) (by decide) (by decide) (by decide)

/-- C8: a USER_FOLLOWED event is published exactly when the follow created a
genuinely new edge.  On a new edge the trace ends with exactly one publish,
keyed by the deduplication string follow-followerId-followingId, whose
payload carries the internal ids and the external auth ids of both
participants; on the idempotent already-exists no-op nothing is published
on USER_FOLLOWED. -/
theorem followed_event_iff_new_edge (env : Env) (db : DB) (req : Request) (now : Nat)
    {fa fb : User}
    (ha : req.userId ≠ "") (hb : req.paramsId ≠ "")
    (hrace : env.insertRaces = false) (hpub : env.publishFails = false)
    (hfa : findUser db req.userId = some fa) (hfb : findUser db req.paramsId = some fb) :
    (findEdge db req.userId req.paramsId = none →
      (followUser env db req now).1
        = Action.respond
            (Response.accepted "Follow request accepted" "processing" req.userId req.paramsId)
          :: Action.txCommit ::
          (invalidateAll env (relationshipCacheKeys req.userId req.paramsId) ++
            [Action.publish ⟨TOPIC_USER_FOLLOWED,
              Payload.followed req.userId req.paramsId fa.authUserId fb.authUserId,
              some ("follow-" ++ req.userId ++ "-" ++ req.paramsId)⟩])
      ∧ publishCount (followUser env db req now).1 TOPIC_USER_FOLLOWED = 1)
    ∧ (∀ e, findEdge db req.userId req.paramsId = some e →
        publishCount (followUser env db req now).1 TOPIC_USER_FOLLOWED = 0) := by
  constructor
  · intro hedge
    have h := followUser_created_eq env db req now ha hb hrace hfa hfb hedge
    simp only [hpub, Bool.false_eq_true, if_false] at h
    refine ⟨by rw [h], ?_⟩
    rw [h]
    simp only [publishCount_cons, publishCount_append, publishCount_invalidateAll,
      publishCount_nil]
    simp
  · intro e hedge
    rw [followUser_alreadyExists_eq env db req now ha hb hfa hfb hedge]
    simp only [publishCount_cons, publishCount_invalidateAll, publishCount_nil]

/-- C8 witness: on the store with no edge the follow publishes the one keyed
event; on the store that already has the u1 → u2 edge it publishes none. -/
theorem followed_event_iff_new_edge_witness :
    ((followUser envOK dbTwoUsers ⟨"u2", "u1"⟩ 9).1
        = Action.respond (Response.accepted "Follow request accepted" "processing" "u1" "u2")
          :: Action.txCommit ::
          (invalidateAll envOK (relationshipCacheKeys "u1" "u2") ++
            [Action.publish ⟨TOPIC_USER_FOLLOWED,
              Payload.followed "u1" "u2" "a1" "a2",
              some ("follow-" ++ "u1" ++ "-" ++ "u2")⟩])
      ∧ publishCount (followUser envOK dbTwoUsers ⟨"u2", "u1"⟩ 9).1 TOPIC_USER_FOLLOWED = 1)
    ∧ publishCount (followUser envOK dbWithEdge ⟨"u2", "u1"⟩ 9).1 TOPIC_USER_FOLLOWED = 0 :=
  ⟨(@followed_event_iff_new_edge envOK dbTwoUsers ⟨"u2", "u1"⟩ 9 ⟨"u1", "a1"⟩ ⟨"u2", "a2"⟩
      (by decide) (by decide) (by decide) (by decide) (by decide) (by decide)).1 (by decide),
   (@followed_event_iff_new_edge envOK dbWithEdge ⟨"u2", "u1"⟩ 9 ⟨"u1", "a1"⟩ ⟨"u2", "a2"⟩
      (by decide) (by decide) (by decide) (by decide) (by decide) (by decide)).2
      ⟨"u1", "u2", 7⟩ (by decide)⟩

/-- C4 (amended): a uniqueness-constraint violation raised by the racing
edge insert is NOT treated as the idempotent already-exists outcome — it
falls into the generic background error handler: no commit, no cache
invalidation, no USER_FOLLOWED event, and (when the dead-letter channel is
up) a dead-letter message carrying the constraint-violation error; this
request leaves the store unchanged. -/
theorem race_unique_violation_dead_letters (env : Env) (db : DB) (req : Request) (now : Nat)
    {fa fb : User}
    (ha : req.userId ≠ "") (hb : req.paramsId ≠ "")
    (hrace : env.insertRaces = true)
    (hfa : findUser db req.userId = some fa) (hfb : findUser db req.paramsId = some fb)
    (hedge : findEdge db req.userId req.paramsId = none) :
    followUser env db req now =
      (Action.respond
          (Response.accepted "Follow request accepted" "processing" req.userId req.paramsId)
        :: deadLetterPath env "follow" req.userId req.paramsId uniqueViolationMsg,
       db)
    ∧ invalidations (followUser env db req now).1 = []
    ∧ publishCount (followUser env db req now).1 TOPIC_USER_FOLLOWED = 0
    ∧ (env.dlqFails = false →
        publishCount (followUser env db req now).1 TOPIC_DEAD_LETTER_QUEUE = 1) := by
  have h := followUser_race_eq env db req now ha hb hrace hfa hfb hedge
  refine ⟨h, ?_, ?_, ?_⟩
  · rw [h]
    simp [invalidations_cons, invalidations_deadLetterPath]
  · rw [h]
    cases hd : env.dlqFails <;>
      simp [publishCount_cons, publishCount_deadLetterPath, hd,
        TOPIC_DEAD_LETTER_QUEUE, TOPIC_USER_FOLLOWED]
  · intro hdlq
    rw [h]
    simp [publishCount_cons, publishCount_deadLetterPath, hdlq]

/-- C4 counterexample: at the concrete race — both users exist, no edge yet,
and a concurrent duplicate insert wins so the insert raises the uniqueness
violation — the handler invalidates no cache key and publishes a
dead-letter message (and commits nothing), contradicting the claim that the
violation is treated as the cache-invalidating, non-dead-lettered
already-exists success. -/
theorem race_unique_violation_counterexample :
    invalidations (followUser envRace dbTwoUsers ⟨"u2", "u1"⟩ 0).1 = []
    ∧ publishCount (followUser envRace dbTwoUsers ⟨"u2", "u1"⟩ 0).1
        TOPIC_DEAD_LETTER_QUEUE = 1
    ∧ Action.txCommit ∉ (followUser envRace dbTwoUsers ⟨"u2", "u1"⟩ 0).1
    ∧ edgeCount (followUser envRace dbTwoUsers ⟨"u2", "u1"⟩ 0).2 "u1" "u2" = 0 := by
  decide

/-- C4 witness: the amended behaviour at the same concrete race. -/
theorem race_unique_violation_dead_letters_witness :
    (followUser envRace dbTwoUsers ⟨"u2", "u1"⟩ 0 =
      (Action.respond (Response.accepted "Follow request accepted" "processing" "u1" "u2")
        :: deadLetterPath envRace "follow" "u1" "u2" uniqueViolationMsg,
       dbTwoUsers))
    ∧ invalidations (followUser envRace dbTwoUsers ⟨"u2", "u1"⟩ 0).1 = []
    ∧ publishCount (followUser envRace dbTwoUsers ⟨"u2", "u1"⟩ 0).1 TOPIC_USER_FOLLOWED = 0
    ∧ (envRace.dlqFails = false →
        publishCount (followUser envRace dbTwoUsers ⟨"u2", "u1"⟩ 0).1
          TOPIC_DEAD_LETTER_QUEUE = 1) :=
  @race_unique_violation_dead_letters envRace dbTwoUsers ⟨"u2", "u1"⟩ 0
    ⟨"u1", "a1"⟩ ⟨"u2", "a2"⟩
    (by decide) (by decide) (by decide) (by decide) (by decide) (by decide)

/-- The descending-by-creation sort is a permutation of its input. -/
theorem sortByCreatedDesc_perm (l : List Edge) : List.Perm (sortByCreatedDesc l) l :=
  List.mergeSort_perm l _

/-- The descending-by-creation sort is sorted: later elements were created
no later than earlier ones. -/
theorem sortByCreatedDesc_sorted (l : List Edge) :
    (sortByCreatedDesc l).Pairwise (fun a b => b.createdAt ≤ a.createdAt) := by
  have h := @List.sorted_mergeSort Edge
    (fun a b : Edge => decide (b.createdAt ≤ a.createdAt))
    (by intro a b c hab hbc; simp only [decide_eq_true_eq] at *; omega)
    (by intro a b; simp only [Bool.or_eq_true, decide_eq_true_eq]; omega) l
  exact List.Pairwise.imp (fun hab => of_decide_eq_true hab) h

/-- Concatenating the k chunks of size L (page i holding elements
[i*L, i*L + L)) reassembles any list of length at most k*L. -/
theorem flatten_chunks (L : Nat) :
    ∀ (k : Nat) (l : List Edge), l.length ≤ k * L →
      ((List.range k).map (fun i => (l.drop (i * L)).take L)).flatten = l := by
  intro k
  induction k with
  | zero =>
    intro l h
    simp only [Nat.zero_mul, Nat.le_zero] at h
    have hl : l = [] := List.length_eq_zero.mp h
    simp [hl]
  | succ k ih =>
    intro l h
    have hlen : (l.drop L).length ≤ k * L := by
      simp only [List.length_drop]
      have hh : l.length ≤ k * L + L := by
        have : (k + 1) * L = k * L + L := by ring
        omega
      omega
    have htail : ∀ i : Nat, (l.drop ((i + 1) * L)).take L
        = ((l.drop L).drop (i * L)).take L := by
      intro i
      rw [List.drop_drop]
      have : (i + 1) * L = L + i * L := by ring
      rw [this]
    rw [List.range_succ_eq_map, List.map_cons, List.flatten_cons, List.map_map]
    have hmap : List.map ((fun i => (l.drop (i * L)).take L) ∘ Nat.succ) (List.range k)
        = List.map (fun i => ((l.drop L).drop (i * L)).take L) (List.range k) :=
      List.map_congr_left (fun i _ => htail i)
    rw [hmap, ih (l.drop L) hlen]
    simp

/-- The ceiling division bound: N elements fit into ceil(N/L) pages of L. -/
theorem le_ceil_mul (N L : Nat) (hL : 0 < L) : N ≤ ((N + L - 1) / L) * L := by
  have h1 := Nat.div_add_mod (N + L - 1) L
  have h2 : (N + L - 1) % L < L := Nat.mod_lt _ hL
  rw [Nat.mul_comm]
  set q := (N + L - 1) / L with hq
  set r := (N + L - 1) % L with hr
  set x := L * q with hx
  omega

/-- Full characterization of one `listPage` call and of the sweep over all
pages: count and page come from the same snapshot, the page is sorted
most-recently-created first, the offset is (page-1)*limit, hasMore is
offset + returned < total, and for positive limit the pages
1..ceil(total/limit) concatenate to a permutation of all matching rows. -/
theorem listPage_correct (rows : List Edge) (page limit : Nat) :
    (listPage rows page limit).pagination.total = rows.length
    ∧ (listPage rows page limit).items.Pairwise (fun a b => b.createdAt ≤ a.createdAt)
    ∧ (listPage rows page limit).items
        = ((sortByCreatedDesc rows).drop ((page - 1) * limit)).take limit
    ∧ ((listPage rows page limit).pagination.hasMore = true ↔
        (page - 1) * limit + (listPage rows page limit).items.length < rows.length)
    ∧ (0 < limit →
        List.Perm
          ((List.range ((rows.length + limit - 1) / limit)).map
            (fun i => (listPage rows (i + 1) limit).items)).flatten
          rows
        ∧ ((List.range ((rows.length + limit - 1) / limit)).map
            (fun i => (listPage rows (i + 1) limit).items.length)).sum = rows.length) := by
  refine ⟨rfl, ?_, rfl, ?_, ?_⟩
  · exact List.Pairwise.sublist
      ((List.take_sublist _ _).trans (List.drop_sublist _ _))
      (sortByCreatedDesc_sorted rows)
  · exact decide_eq_true_iff
  · intro hL
    have hitems : ∀ i : Nat, (listPage rows (i + 1) limit).items
        = ((sortByCreatedDesc rows).drop (i * limit)).take limit := by
      intro i
      simp [listPage]
    have hlen : (sortByCreatedDesc rows).length = rows.length :=
      (sortByCreatedDesc_perm rows).length_eq
    have hbound : (sortByCreatedDesc rows).length
        ≤ ((rows.length + limit - 1) / limit) * limit := by
      rw [hlen]
      exact le_ceil_mul rows.length limit hL
    have hflat : ((List.range ((rows.length + limit - 1) / limit)).map
        (fun i => (listPage rows (i + 1) limit).items)).flatten = sortByCreatedDesc rows := by
      rw [List.map_congr_left (fun i _ => hitems i)]
      exact flatten_chunks limit ((rows.length + limit - 1) / limit)
        (sortByCreatedDesc rows) hbound
    have hperm : List.Perm ((List.range ((rows.length + limit - 1) / limit)).map
        (fun i => (listPage rows (i + 1) limit).items)).flatten rows := by
      rw [hflat]
      exact sortByCreatedDesc_perm rows
    refine ⟨hperm, ?_⟩
    have hsum := hperm.length_eq
    rw [List.length_flatten, List.map_map] at hsum
    simpa [Function.comp] using hsum

/-- C9: for every user id, page and limit (page ≥ 1), `getFollowers` and
`getFollowing` compute total and page from one snapshot of the edge table,
return the page ordered most-recently-created first at offset
(page-1)*limit, report hasMore = offset + returned < total, and for a
positive limit the pages 1..ceil(N/limit) together return each matching
edge exactly once (their concatenation is a permutation of the N matching
rows, and their lengths sum to N). -/
theorem pagination_consistent (db : DB) (id : String) (page limit : Nat)
    (hp : 1 ≤ page) :
    ((getFollowers db id page limit).pagination.total
        = (db.follows.filter (fun e => e.followingId == id)).length
      ∧ (getFollowers db id page limit).items.Pairwise (fun a b => b.createdAt ≤ a.createdAt)
      ∧ (getFollowers db id page limit).items
          = ((sortByCreatedDesc (db.follows.filter (fun e => e.followingId == id))).drop
              ((page - 1) * limit)).take limit
      ∧ ((getFollowers db id page limit).pagination.hasMore = true ↔
          (page - 1) * limit + (getFollowers db id page limit).items.length
            < (db.follows.filter (fun e => e.followingId == id)).length)
      ∧ (0 < limit →
          List.Perm
            ((List.range
                (((db.follows.filter (fun e => e.followingId == id)).length + limit - 1)
                  / limit)).map
              (fun i => (getFollowers db id (i + 1) limit).items)).flatten
            (db.follows.filter (fun e => e.followingId == id))
          ∧ ((List.range
                (((db.follows.filter (fun e => e.followingId == id)).length + limit - 1)
                  / limit)).map
              (fun i => (getFollowers db id (i + 1) limit).items.length)).sum
            = (db.follows.filter (fun e => e.followingId == id)).length))
    ∧ ((getFollowing db id page limit).pagination.total
        = (db.follows.filter (fun e => e.followerId == id)).length
      ∧ (getFollowing db id page limit).items.Pairwise (fun a b => b.createdAt ≤ a.createdAt)
      ∧ (getFollowing db id page limit).items
          = ((sortByCreatedDesc (db.follows.filter (fun e => e.followerId == id))).drop
              ((page - 1) * limit)).take limit
      ∧ ((getFollowing db id page limit).pagination.hasMore = true ↔
          (page - 1) * limit + (getFollowing db id page limit).items.length
            < (db.follows.filter (fun e => e.followerId == id)).length)
      ∧ (0 < limit →
          List.Perm
            ((List.range
                (((db.follows.filter (fun e => e.followerId == id)).length + limit - 1)
                  / limit)).map
              (fun i => (getFollowing db id (i + 1) limit).items)).flatten
            (db.follows.filter (fun e => e.followerId == id))
          ∧ ((List.range
                (((db.follows.filter (fun e => e.followerId == id)).length + limit - 1)
                  / limit)).map
              (fun i => (getFollowing db id (i + 1) limit).items.length)).sum
            = (db.follows.filter (fun e => e.followerId == id)).length)) :=
  ⟨listPage_correct (db.follows.filter (fun e => e.followingId == id)) page limit,
   listPage_correct (db.follows.filter (fun e => e.followerId == id)) page limit⟩

/-- C9 witness: on the three-edge store with limit 2, page 1 of the
followers of b is sorted descending and pages 1..2 together return all
three edges exactly once. -/
theorem pagination_consistent_witness :
    (getFollowers dbThreeEdges "b" 1 2).items.Pairwise (fun a b => b.createdAt ≤ a.createdAt)
    ∧ List.Perm
        ((List.range
            (((dbThreeEdges.follows.filter (fun e => e.followingId == "b")).length + 2 - 1)
              / 2)).map
          (fun i => (getFollowers dbThreeEdges "b" (i + 1) 2).items)).flatten
        (dbThreeEdges.follows.filter (fun e => e.followingId == "b")) :=
  ⟨(pagination_consistent dbThreeEdges "b" 1 2 (by decide)).1.2.1,
   ((pagination_consistent dbThreeEdges "b" 1 2 (by decide)).1.2.2.2.2 (by decide)).1⟩

end UserService
